import Mathlib

/-!
Verification of the frame lifecycle and synchronization engine of the
CodotakuDirectX12 sample (src/CodotakuDirectX12/CodotakuDirectX12.cpp).

The CPU side of the program is a single-threaded loop: `App::App` (the
constructor, lines 45-159) creates the device objects and queries the initial
back-buffer index; `App::Render` (lines 161-207) runs one frame; `WindowProc`
(lines 229-247) dispatches messages; `wWinMain` (lines 249-261) is the entry
point.  The GPU executes asynchronously; its only observable effects in this
program are the fence completed value (`ID3D12Fence::GetCompletedValue`) and
the back-buffer index reported by the swap chain.

The embedding below models:
  * the mutable per-`App` state (`m_frameIndex`, `m_fenceValue`) and one
    `Render` tick as a pure state transformer that also emits the ordered
    list of device calls the tick performs;
  * arbitrarily long runs of `Render` ticks driven by two oracles: `comp k`
    (the value `GetCompletedValue` returns at the fence check of tick `k`)
    and `surf q` (the value `GetCurrentBackBufferIndex` returns at its
    `q`-th call, the swap chain being free to return any index sequence);
  * a global instant grid with a `Schedule` of fence progress, constrained
    exactly by what the Direct3D fence guarantees (monotone completed value,
    never exceeding the last signaled value, and the wait of lines 201-204
    not letting the CPU proceed until the waited-on value is reached).

`UINT64 m_fenceValue` is modelled as a natural number reduced modulo `2^64`
at the increment of line 199.
-/

/-- `2^64`, the modulus of the `UINT64` fence counter `m_fenceValue`. -/
def U64 : ℕ := 2 ^ 64

/-- `App::FrameCount` (line 210): the swap chain is created with two buffers. -/
def App.FrameCount : ℕ := 2

/-- The two `D3D12_RESOURCE_STATES` values used by `App::Render`
(lines 172-189). -/
inductive ResourceState
  | present
  | renderTarget
deriving DecidableEq, Repr

/-- One device call performed by `App::Render`, in the order the source makes
them.  `fenceWait v blocked` stands for the conditional block of lines
201-204: the CPU reads `GetCompletedValue`, and if it is below `v` it binds an
event to completion of `v` and blocks (`blocked = true`); otherwise it falls
through (`blocked = false`). -/
inductive Ev
  | commandAllocatorReset
  | commandListReset
  | resourceBarrier (buffer : ℕ) (stateBefore stateAfter : ResourceState)
  | clearRenderTargetView (buffer : ℕ)
  | commandListClose
  | executeCommandLists
  | swapChainPresent
  | queueSignal (value : ℕ)
  | fenceWait (value : ℕ) (blocked : Bool)
  | getCurrentBackBufferIndex
deriving DecidableEq, Repr

/-- The mutable fields of `App` that the frame loop reads and writes:
`m_frameIndex` (line 218) and `m_fenceValue` (line 226). -/
structure AppState where
  m_frameIndex : ℕ
  m_fenceValue : ℕ
deriving DecidableEq, Repr

/-- State of `App` at the end of the constructor: `m_fenceValue = 0`
(initializer, line 226) and `m_frameIndex` set from
`GetCurrentBackBufferIndex` (line 125); `surf0` is the index the swap chain
reports there. -/
def App.initialState (surf0 : ℕ) : AppState :=
  { m_frameIndex := surf0, m_fenceValue := 0 }

/-- `App::Render` (lines 161-207) as a pure function.  `completedValue` is
what `m_fence->GetCompletedValue()` returns at line 201 and
`nextBackBufferIndex` is what `GetCurrentBackBufferIndex()` returns at line
206.  It returns the updated state and the ordered list of device calls the
tick performs:
allocator reset (162), list reset (163), transition barrier
PRESENT → RENDER_TARGET on `m_renderTargets[m_frameIndex]` (172-177), clear
of that buffer (180), transition barrier RENDER_TARGET → PRESENT (183-188),
list close (191), `ExecuteCommandLists` (193), `Present` (195),
`Signal(m_fence, fence)` with `fence = m_fenceValue` before the increment
(197-199), the conditional fence wait (201-204), and the re-read of the
back-buffer index (206). -/
def App.Render (s : AppState) (completedValue : ℕ) (nextBackBufferIndex : ℕ) :
    AppState × List Ev :=
  let fence := s.m_fenceValue
  ({ m_frameIndex := nextBackBufferIndex,
     m_fenceValue := (s.m_fenceValue + 1) % U64 },
   [Ev.commandAllocatorReset,
    Ev.commandListReset,
    Ev.resourceBarrier s.m_frameIndex ResourceState.present ResourceState.renderTarget,
    Ev.clearRenderTargetView s.m_frameIndex,
    Ev.resourceBarrier s.m_frameIndex ResourceState.renderTarget ResourceState.present,
    Ev.commandListClose,
    Ev.executeCommandLists,
    Ev.swapChainPresent,
    Ev.queueSignal fence,
    Ev.fenceWait fence (decide (completedValue < fence)),
    Ev.getCurrentBackBufferIndex])

/-- The `App` state after `k` `Render` ticks starting from a freshly
constructed `App`.  `comp k` is the `GetCompletedValue` result at tick `k`'s
fence check; `surf q` is the `GetCurrentBackBufferIndex` result at its `q`-th
call (call `0` is the one in the constructor, line 125; call `k + 1` is the
one at the end of tick `k`, line 206). -/
def runTicks (comp surf : ℕ → ℕ) : ℕ → AppState
  | 0 => App.initialState (surf 0)
  | k + 1 => (App.Render (runTicks comp surf k) (comp k) (surf (k + 1))).1

/-- The device calls performed by tick `k` of a run. -/
def tickEvents (comp surf : ℕ → ℕ) (k : ℕ) : List Ev :=
  (App.Render (runTicks comp surf k) (comp k) (surf (k + 1))).2

/-- The fence value captured at line 197 of tick `k` (`const UINT64 fence =
m_fenceValue`): the value passed to `Signal` at line 198 and to the fence
wait of lines 201-204, taken before the increment of line 199. -/
def signalValueOfTick (comp surf : ℕ → ℕ) (k : ℕ) : ℕ :=
  (runTicks comp surf k).m_fenceValue

/-- The fence value signaled at tick `k`, in closed form: `k % 2^64`
(see `runTicks_fenceValue`). -/
def signaledAt (k : ℕ) : ℕ := k % U64

/-- Recognizer for the signal event of a tick. -/
def isSignalEv : Ev → Bool
  | Ev.queueSignal _ => true
  | _ => false

/-- Recognizer for the fence check/wait event of a tick (lines 201-204). -/
def isFenceWaitEv : Ev → Bool
  | Ev.fenceWait _ _ => true
  | _ => false

/-- Recognizer for the two resource transition barriers of a tick. -/
def isBarrierEv : Ev → Bool
  | Ev.resourceBarrier _ _ _ => true
  | _ => false

/-!
Global instant grid.  To talk about what holds "at every instant" we place
the CPU's per-tick device calls on a discrete grid: the constructor is
instant `0`, and phase `p` (0-10, in the order of the `Ev` list produced by
`App.Render`) of tick `i` is the instant `cpuStep i p`.  CPU instants are
even, so every odd instant is a point where only the GPU can act; the fence
completed value may advance between any two instants.
-/

/-- The instant at which phase `p` (0-10) of tick `i` happens.  Phases:
0 allocator reset, 1 list reset, 2 first barrier, 3 clear, 4 second barrier,
5 list close, 6 `ExecuteCommandLists`, 7 `Present`, 8 `Signal`,
9 fence check/wait, 10 back-buffer index re-read. -/
def cpuStep (i p : ℕ) : ℕ := 2 * (1 + 11 * i + p)

/-- Number of `Signal` calls (phase 8) issued strictly before instant `s`. -/
def sigCount (s : ℕ) : ℕ :=
  ((Finset.range s).filter (fun i => cpuStep i 8 < s)).card

/-- A possible evolution of the fence completed value over the instants of a
run of `n` ticks.  `completed s` is what `GetCompletedValue` would return at
instant `s`.  The constraints are exactly the Direct3D fence guarantees the
program relies on:
  * `mono`: the completed value never decreases;
  * `bounded`: the fence is created with value `0` (line 150) and only the
    queue signals it, with the values `0, 1, 2, ...` of successive ticks
    (line 198), so at any instant the completed value is at most the number
    of signals issued so far minus one (`0` before any signal, in truncated
    subtraction), and at most `n - 1` in a run of `n` ticks;
  * `waitDone`: lines 201-204 do not let the CPU pass the fence check of
    tick `k` until the completed value has reached the value signaled at
    tick `k`, so by the next CPU instant (`cpuStep k 10`) it has. -/
structure Schedule (n : ℕ) where
  completed : ℕ → ℕ
  mono : ∀ {s t : ℕ}, s ≤ t → completed s ≤ completed t
  bounded : ∀ s : ℕ, completed s ≤ sigCount s - 1 ∧ completed s ≤ n - 1
  waitDone : ∀ k : ℕ, k < n → signaledAt k ≤ completed (cpuStep k 10)

/-- Tick `i`'s submission is in flight at instant `s`: its
`ExecuteCommandLists` call (phase 6) has happened and the fence has not yet
reached the value signaled for it. -/
def inFlight (n : ℕ) (sched : Schedule n) (s i : ℕ) : Prop :=
  cpuStep i 6 < s ∧ sched.completed s < signaledAt i

instance (n : ℕ) (sched : Schedule n) (s i : ℕ) : Decidable (inFlight n sched s i) :=
  inferInstanceAs (Decidable (cpuStep i 6 < s ∧ sched.completed s < signaledAt i))

/-- A concrete schedule witnessing that the `Schedule` constraints are
satisfiable: the GPU that finishes each frame's work just as the CPU blocks
on it (the fully synchronous behavior the wait of lines 201-204 enforces
anyway). -/
def syncSchedule (n : ℕ) : Schedule n where
  completed := fun s => min (sigCount s) n - 1
  mono := by
    intro s t hst
    show min (sigCount s) n - 1 ≤ min (sigCount t) n - 1
    have h : sigCount s ≤ sigCount t := by
      apply Finset.card_le_card
      intro i hi
      simp only [Finset.mem_filter, Finset.mem_range, cpuStep] at hi ⊢
      omega
    exact Nat.sub_le_sub_right (min_le_min h le_rfl) 1
  bounded := by
    intro s
    refine ⟨?_, ?_⟩
    · exact Nat.sub_le_sub_right (min_le_left _ _) 1
    · exact Nat.sub_le_sub_right (min_le_right _ _) 1
  waitDone := by
    intro k hk
    show signaledAt k ≤ min (sigCount (cpuStep k 10)) n - 1
    have h : sigCount (cpuStep k 10) = k + 1 := by
      have hset : (Finset.range (cpuStep k 10)).filter
          (fun i => cpuStep i 8 < cpuStep k 10) = Finset.range (k + 1) := by
        apply Finset.ext
        intro i
        simp only [Finset.mem_filter, Finset.mem_range, cpuStep]
        omega
      rw [sigCount, hset, Finset.card_range]
    have h2 : signaledAt k ≤ k := Nat.mod_le k U64
    rw [h, min_eq_left (by omega : k + 1 ≤ n)]
    omega

/-- The instant of the handle releases at shutdown: after the last tick, the
`WM_CLOSE` dispatch (`PostQuitMessage`, line 232) and the message-loop exit
occupy the next two CPU instants, and the `App` destructor (implicit, running
at the end of `wWinMain`) releases the device objects at the one after. -/
def shutdownReleaseStep (n : ℕ) : ℕ := 2 * (1 + 11 * n + 2)

/-!
Whole-program event trace for shutdown (`WindowProc` lines 229-247,
`wWinMain` lines 249-261).  `WM_CLOSE` only calls `PostQuitMessage(0)`
(line 232); the message loop of `wWinMain` then stops on `WM_QUIT` and the
`App` destructor (implicit) releases the device objects when `app` goes out
of scope at the end of `wWinMain`.  No code runs between the close
notification and the releases other than the quit posting and the loop exit.
-/

/-- A GPU-related handle owned by `App` and released by its (implicit)
destructor; members are destroyed in reverse declaration order
(lines 212-226), array elements in reverse subscript order. -/
inductive Handle
  | fence
  | commandList
  | commandAllocator
  | renderTarget (i : ℕ)
  | rtvHeap
  | swapChain
  | commandQueue
  | device
  | factory
deriving DecidableEq, Repr

/-- One event of the whole-program trace. -/
inductive TraceEv
  | appConstructed
  | tick (e : Ev)
  | closeRequested
  | postQuitMessage
  | releaseHandle (h : Handle)
deriving DecidableEq, Repr

/-- The handle releases performed by the `App` destructor, in destruction
order. -/
def shutdownReleases : List TraceEv :=
  [TraceEv.releaseHandle Handle.fence,
   TraceEv.releaseHandle Handle.commandList,
   TraceEv.releaseHandle Handle.commandAllocator,
   TraceEv.releaseHandle (Handle.renderTarget 1),
   TraceEv.releaseHandle (Handle.renderTarget 0),
   TraceEv.releaseHandle Handle.rtvHeap,
   TraceEv.releaseHandle Handle.swapChain,
   TraceEv.releaseHandle Handle.commandQueue,
   TraceEv.releaseHandle Handle.device,
   TraceEv.releaseHandle Handle.factory]

/-- The event trace of a run of the program that performs `n` `Render` ticks
(each a `WM_PAINT` dispatch) and then receives `WM_CLOSE`: construction, the
ticks' device calls, the close notification, the `PostQuitMessage` call it is
handled with, and the destructor's releases after the message loop exits. -/
def programTrace (n : ℕ) (comp surf : ℕ → ℕ) : List TraceEv :=
  TraceEv.appConstructed ::
    ((List.range n).flatMap (fun k => (tickEvents comp surf k).map TraceEv.tick) ++
      (TraceEv.closeRequested :: TraceEv.postQuitMessage :: shutdownReleases))

/-- Recognizer for the close notification in a program trace. -/
def isCloseEv : TraceEv → Bool
  | TraceEv.closeRequested => true
  | _ => false

/-- Recognizer for a handle release in a program trace. -/
def isReleaseEv : TraceEv → Bool
  | TraceEv.releaseHandle _ => true
  | _ => false

/-- Recognizer for a fence check/wait in a program trace. -/
def isWaitTraceEv : TraceEv → Bool
  | TraceEv.tick (Ev.fenceWait _ _) => true
  | _ => false

/-- The segment of a trace from the close notification (exclusive) up to the
first handle release (exclusive): everything the program does between
receiving `WM_CLOSE` and starting to release GPU handles. -/
def betweenCloseAndRelease (t : List TraceEv) : List TraceEv :=
  ((t.dropWhile (fun e => !isCloseEv e)).drop 1).takeWhile (fun e => !isReleaseEv e)

/-!
`WindowProc` (lines 229-247) as a function from the received message to the
actions the handler performs.  The source handles exactly `WM_CLOSE`,
`WM_CREATE` and `WM_PAINT`; every other message — in particular `WM_SIZE`,
the resize notification — falls to `DefWindowProcW` (line 245).  The
vocabulary of actions includes a buffer rebuild so that its absence is
expressible; no branch of the source ever produces it, since the program
contains no swap-chain resize or buffer re-creation code.
-/

/-- A window message, as dispatched to `WindowProc`.  `wmSize w h` is the
resize notification carrying the new client-area dimensions; `wmPaint` is the
redraw request (the source reads no size information when handling it). -/
inductive WMsg
  | wmClose
  | wmCreate
  | wmPaint
  | wmSize (w h : ℕ)
  | wmOther (code : ℕ)
deriving DecidableEq, Repr

/-- An action a window-message handler can perform. -/
inductive WAction
  | postQuit
  | storeUserData
  | callRender
  | rebuildBuffers (count : ℕ) (w h : ℕ)
  | defaultProc
deriving DecidableEq, Repr

/-- `WindowProc` (lines 229-247): `WM_CLOSE` posts the quit message,
`WM_CREATE` stores the `App` pointer, `WM_PAINT` calls `app->Render()`, and
everything else — including `WM_SIZE` — goes to `DefWindowProcW`. -/
def WindowProc : WMsg → List WAction
  | WMsg.wmClose => [WAction.postQuit]
  | WMsg.wmCreate => [WAction.storeUserData]
  | WMsg.wmPaint => [WAction.callRender]
  | WMsg.wmSize _ _ => [WAction.defaultProc]
  | WMsg.wmOther _ => [WAction.defaultProc]

/-- Recognizer for a buffer rebuild action. -/
def isRebuildAction : WAction → Bool
  | WAction.rebuildBuffers _ _ _ => true
  | _ => false

/-- Recognizer for a render invocation. -/
def isRenderAction : WAction → Bool
  | WAction.callRender => true
  | _ => false

/-!
Setup failure handling (`HrToString` lines 26-28, `HrException` lines 30-36,
`ThrowIfFailed` lines 38-41, and the constructor's `ThrowIfFailed`-guarded
creation calls).  An `HRESULT` is a signed 32-bit status code; `FAILED(hr)`
is `hr < 0`.  Exceptions are modelled with `Except`; C++ exception
propagation out of straight-line code is the `Except` bind short-circuit.
-/

/-- An uppercase hexadecimal digit. -/
def hexDigit (n : ℕ) : Char :=
  if n < 10 then Char.ofNat (48 + n) else Char.ofNat (55 + n)

/-- `n` rendered as exactly eight uppercase hexadecimal digits, the effect of
the `{:08X}` format specification on a 32-bit value. -/
def toHex8 (n : ℕ) : String :=
  String.mk ((List.range 8).map (fun k => hexDigit (n / 16 ^ (7 - k) % 16)))

/-- `static_cast<UINT>(hr)` (line 27): the 32-bit two's-complement bit
pattern of the signed `HRESULT`, as a natural number. -/
def hresultBits (hr : ℤ) : ℕ := (hr % (2 ^ 32 : ℤ)).toNat

/-- `HrToString` (lines 26-28): the message
`"HRESULT of 0x"` followed by the code's eight hex digits. -/
def HrToString (hr : ℤ) : String :=
  "HRESULT of 0x" ++ toHex8 (hresultBits hr)

/-- `HrException` (lines 30-36): a `runtime_error` carrying the failing
`HRESULT`. -/
structure HrException where
  m_hr : ℤ
deriving DecidableEq, Repr

/-- `HrException::Error` (line 33): the exact underlying status code. -/
def HrException.Error (e : HrException) : ℤ := e.m_hr

/-- `runtime_error::what()` for an `HrException`: the message built from
`HrToString(hr)` at construction (line 32). -/
def HrException.what (e : HrException) : String := HrToString e.m_hr

/-- `ThrowIfFailed` (lines 38-41): throw `HrException(hr)` when
`FAILED(hr)`, i.e. when `hr < 0`. -/
def ThrowIfFailed (hr : ℤ) : Except HrException Unit :=
  if hr < 0 then Except.error { m_hr := hr } else Except.ok ()

/-- The number of `ThrowIfFailed`-guarded device/factory creation calls in
the constructor, in source order: `CreateDXGIFactory2` (line 100),
`D3D12CreateDevice` (101), `CreateCommandQueue` (104),
`CreateSwapChainForHwnd` (119), `MakeWindowAssociation` (121),
`swapChain.As` (123), `CreateDescriptorHeap` (132), `GetBuffer` for each of
the two frames (140), `CreateCommandAllocator` (146), `CreateCommandList`
(148) and `CreateFence` (150). -/
def setupCallCount : ℕ := 12

/-- The first `m` `ThrowIfFailed`-guarded setup calls of the constructor,
run in order; `hr j` is the status the `j`-th call returns.  C++ unwinding
aborts the constructor at the first failure, which is the `Except` bind
short-circuit. -/
def runSetupChecks (hr : ℕ → ℤ) : ℕ → Except HrException Unit
  | 0 => Except.ok ()
  | m + 1 => do
    runSetupChecks hr m
    ThrowIfFailed (hr m)

/-- The fallible part of `App::App` (lines 100-150): all twelve guarded
setup calls in order. -/
def appSetup (hr : ℕ → ℤ) : Except HrException Unit :=
  runSetupChecks hr setupCallCount

/-- `wWinMain` (lines 249-261) as seen by setup failures: it constructs the
`App` with no surrounding handler, so a constructor exception leaves the
entry point (terminating the process); on success the message loop
eventually returns `0`. -/
def wWinMainSetup (hr : ℕ → ℤ) : Except HrException ℤ := do
  appSetup hr
  Except.ok 0

/-!
Command-list open/closed discipline (`App::App` lines 148-149, `App::Render`
lines 163 and 191).  `ID3D12GraphicsCommandList` contract:
`CreateCommandList` returns a list in the recording state; `Close` may only
be called on a recording list; `Reset` may only be called on a closed list.
The state machine returns an error on a contract violation.
-/

/-- Recording state of the command list. -/
inductive ListState
  | recording
  | closed
deriving DecidableEq, Repr

/-- The list state right after `CreateCommandList` (line 148): recording. -/
def afterCreateCommandList : ListState := ListState.recording

/-- `ID3D12GraphicsCommandList::Close`: legal only while recording. -/
def listCloseOp : ListState → Except String ListState
  | ListState.recording => Except.ok ListState.closed
  | ListState.closed => Except.error "Close called on a command list that is not recording"

/-- `ID3D12GraphicsCommandList::Reset`: legal only on a closed list. -/
def listResetOp : ListState → Except String ListState
  | ListState.closed => Except.ok ListState.recording
  | ListState.recording => Except.error "Reset called on a command list that was not closed"

/-- The command-list state at the end of `App::App`: created (line 148) and
immediately closed (line 149). -/
def ctorCommandListState : Except String ListState :=
  listCloseOp afterCreateCommandList

/-- The command-list operations of one `App::Render` tick: `Reset` at line
163, then recording, then `Close` at line 191. -/
def renderCommandListState (s : ListState) : Except String ListState := do
  let s1 ← listResetOp s
  listCloseOp s1

/-- The command-list state after the constructor and `n` `Render` ticks. -/
def commandListStateAfter : ℕ → Except String ListState
  | 0 => ctorCommandListState
  | n + 1 => do
    let s ← commandListStateAfter n
    renderCommandListState s

/-!  Helper lemmas about runs of `Render` ticks. -/

/-- The fence counter after `k` ticks is `k % 2^64`: it starts at `0`
(line 226) and each tick increments it once (line 199). -/
theorem runTicks_fenceValue (comp surf : ℕ → ℕ) (k : ℕ) :
    (runTicks comp surf k).m_fenceValue = signaledAt k := by
  induction k with
  | zero => rfl
  | succ k ih =>
    show ((runTicks comp surf k).m_fenceValue + 1) % U64 = signaledAt (k + 1)
    rw [ih]
    simp only [signaledAt]
    rw [Nat.mod_add_mod]

/-- `m_frameIndex` after `k` ticks is exactly the `k`-th
`GetCurrentBackBufferIndex` answer: the constructor stores answer `0`
(line 125) and tick `k - 1` overwrites it with answer `k` (line 206). -/
theorem runTicks_frameIndex (comp surf : ℕ → ℕ) (k : ℕ) :
    (runTicks comp surf k).m_frameIndex = surf k := by
  cases k with
  | zero => rfl
  | succ k => rfl

/-- The device calls of tick `k` in closed form, for `k` below the `UINT64`
modulus: the fence value signaled and waited on is `k` and the buffer
recorded against is the one the surface reported last (`surf k`). -/
theorem tickEvents_eq (comp surf : ℕ → ℕ) (k : ℕ) (hk : k < U64) :
    tickEvents comp surf k =
      [Ev.commandAllocatorReset,
       Ev.commandListReset,
       Ev.resourceBarrier (surf k) ResourceState.present ResourceState.renderTarget,
       Ev.clearRenderTargetView (surf k),
       Ev.resourceBarrier (surf k) ResourceState.renderTarget ResourceState.present,
       Ev.commandListClose,
       Ev.executeCommandLists,
       Ev.swapChainPresent,
       Ev.queueSignal k,
       Ev.fenceWait k (decide (comp k < k)),
       Ev.getCurrentBackBufferIndex] := by
  have hf : (runTicks comp surf k).m_fenceValue = k := by
    rw [runTicks_fenceValue]
    exact Nat.mod_eq_of_lt hk
  have hi : (runTicks comp surf k).m_frameIndex = surf k :=
    runTicks_frameIndex comp surf k
  simp only [tickEvents, App.Render, hf, hi]

/-- Claim C3: starting from a freshly constructed `App`, the fence value
signaled on the `i`-th `Render` tick (0-based) is exactly `i` — values start
at `0`, increase by exactly `1` per frame and are never reused — and the
value signaled is the counter's value before the increment of line 199 (the
state after the tick holds the incremented counter).  The bound `i < 2^64`
reflects that `m_fenceValue` is a `UINT64`. -/
theorem c3_signal_value_of_tick_eq_tick_index (comp surf : ℕ → ℕ) (i : ℕ)
    (hi : i < U64) :
    signalValueOfTick comp surf i = i ∧
    (runTicks comp surf (i + 1)).m_fenceValue =
      (signalValueOfTick comp surf i + 1) % U64 := by
  constructor
  · rw [signalValueOfTick, runTicks_fenceValue]
    exact Nat.mod_eq_of_lt hi
  · rfl

/-- Witness for C3 at tick 5. -/
theorem c3_signal_value_of_tick_eq_tick_index_witness :
    (5 : ℕ) < U64 ∧
    (signalValueOfTick (fun _ => 0) (fun q => q % 2) 5 = 5 ∧
     (runTicks (fun _ => 0) (fun q => q % 2) (5 + 1)).m_fenceValue =
       (signalValueOfTick (fun _ => 0) (fun q => q % 2) 5 + 1) % U64) :=
  ⟨by decide,
   c3_signal_value_of_tick_eq_tick_index (fun _ => 0) (fun q => q % 2) 5 (by decide)⟩

/-- Claim C6: the stored buffer index always equals the value the surface
last reported: right after construction it is the constructor's query
(line 125), and after each tick it is the query made immediately after that
tick's `Present` (line 206).  The result holds for an arbitrary
index-reporting function `surf` — in particular when the surface reports an
unchanged index, the stored index is that reported value, not an increment
of the previous one; the CPU never computes the index itself. -/
theorem c6_frame_index_is_last_surface_report (comp surf : ℕ → ℕ) (k : ℕ) :
    (App.initialState (surf 0)).m_frameIndex = surf 0 ∧
    (runTicks comp surf k).m_frameIndex = surf k ∧
    (runTicks comp surf (k + 1)).m_frameIndex = surf (k + 1) :=
  ⟨rfl, runTicks_frameIndex comp surf k, runTicks_frameIndex comp surf (k + 1)⟩

/-- Claim C5: every `Render` tick performs, in exactly this order: allocator
reset, command-list reopen, PRESENT → RENDER_TARGET barrier on the current
buffer, clear of that buffer, RENDER_TARGET → PRESENT barrier, list close,
submission to the queue, presentation request, fence signal, the conditional
fence wait, and the re-read of the current buffer index — with exactly two
transition barriers per tick. -/
theorem c5_render_performs_steps_in_order (comp surf : ℕ → ℕ) (k : ℕ)
    (hk : k < U64) :
    tickEvents comp surf k =
      [Ev.commandAllocatorReset,
       Ev.commandListReset,
       Ev.resourceBarrier (surf k) ResourceState.present ResourceState.renderTarget,
       Ev.clearRenderTargetView (surf k),
       Ev.resourceBarrier (surf k) ResourceState.renderTarget ResourceState.present,
       Ev.commandListClose,
       Ev.executeCommandLists,
       Ev.swapChainPresent,
       Ev.queueSignal k,
       Ev.fenceWait k (decide (comp k < k)),
       Ev.getCurrentBackBufferIndex] ∧
    (tickEvents comp surf k).countP isBarrierEv = 2 := by
  refine ⟨tickEvents_eq comp surf k hk, ?_⟩
  rw [tickEvents_eq comp surf k hk]
  rfl

/-- Witness for C5 at tick 2. -/
theorem c5_render_performs_steps_in_order_witness :
    (2 : ℕ) < U64 ∧
    (tickEvents (fun _ => 0) (fun q => q % 2) 2 =
      [Ev.commandAllocatorReset,
       Ev.commandListReset,
       Ev.resourceBarrier ((fun q => q % 2) 2) ResourceState.present ResourceState.renderTarget,
       Ev.clearRenderTargetView ((fun q => q % 2) 2),
       Ev.resourceBarrier ((fun q => q % 2) 2) ResourceState.renderTarget ResourceState.present,
       Ev.commandListClose,
       Ev.executeCommandLists,
       Ev.swapChainPresent,
       Ev.queueSignal 2,
       Ev.fenceWait 2 (decide ((fun _ => (0:ℕ)) 2 < 2)),
       Ev.getCurrentBackBufferIndex] ∧
     (tickEvents (fun _ => 0) (fun q => q % 2) 2).countP isBarrierEv = 2) :=
  ⟨by decide,
   c5_render_performs_steps_in_order (fun _ => 0) (fun q => q % 2) 2 (by decide)⟩

/-- Claim C2 is false on the code: the fence value the wait of lines 201-204
targets at tick `i` is the value signaled in that same tick, not the value
signaled the previous frame (`N - 1 = 1` frames earlier for `N = 2`).  At
tick 1 the wait targets value 1 — the value signaled at tick 0 was 0 — and
it blocks (with the GPU still reporting completed value 0) even though the
previous frame's value 0 is already reached, which the claim says is the
only situation in which it may block. -/
theorem c2_counterexample :
    (tickEvents (fun _ => 0) (fun q => q % 2) 1).find? isFenceWaitEv =
      some (Ev.fenceWait 1 true) ∧
    (tickEvents (fun _ => 0) (fun q => q % 2) 0).find? isSignalEv =
      some (Ev.queueSignal 0) ∧
    (1 : ℕ) ≠ 0 := by
  decide

/-- Claim C2 amended: the fence wait performed at tick `k` targets the fence
value signaled in the same tick (value `k`, zero frames earlier), so the
loop is fully synchronous — no CPU/GPU frame overlap is permitted; the wait
blocks exactly when that value has not yet been reached at the check of line
201 (`comp k < k`). -/
theorem c2_wait_targets_current_tick_value (comp surf : ℕ → ℕ) (k : ℕ)
    (hk : k < U64) :
    (tickEvents comp surf k).find? isFenceWaitEv =
      some (Ev.fenceWait k (decide (comp k < k))) ∧
    (tickEvents comp surf k).find? isSignalEv = some (Ev.queueSignal k) := by
  rw [tickEvents_eq comp surf k hk]
  exact ⟨rfl, rfl⟩

/-- Witness for the amended C2 at tick 3. -/
theorem c2_wait_targets_current_tick_value_witness :
    (3 : ℕ) < U64 ∧
    ((tickEvents (fun _ => 1) (fun q => q % 2) 3).find? isFenceWaitEv =
      some (Ev.fenceWait 3 (decide ((fun _ => (1:ℕ)) 3 < 3))) ∧
     (tickEvents (fun _ => 1) (fun q => q % 2) 3).find? isSignalEv =
      some (Ev.queueSignal 3)) :=
  ⟨by decide,
   c2_wait_targets_current_tick_value (fun _ => 1) (fun q => q % 2) 3 (by decide)⟩

/-- Implicit claim C10: the command list is closed whenever control is
outside `Render` — the constructor closes it right after creating it (lines
148-149) and every tick closes it (line 191) before submitting and only
reopens it at the start of the next tick (line 163) — so every `Reset` of
the list happens on a closed list.  The state machine `commandListStateAfter`
returns an error if any `Close` or `Reset` violates the recording contract,
so `Except.ok closed` for every `n` means no violation ever occurs and the
list is closed at every tick boundary. -/
theorem c10_command_list_closed_outside_render (n : ℕ) :
    commandListStateAfter n = Except.ok ListState.closed := by
  induction n with
  | zero => rfl
  | succ n ih =>
    simp only [commandListStateAfter, ih]
    rfl

/-- Claim C1: before the per-frame allocator/command-list reset of any tick
`t ≥ 1` (phase 0 of tick `t`, lines 162-163), every fence value previously
assigned to work recorded through the allocator (the value signaled at any
earlier tick `j < t`) has been reached: the GPU-visible completed value at
that instant is at least that fence value.  This holds for every valid fence
schedule, every frame, including the first frames after startup, because the
wait of lines 201-204 does not let tick `t - 1` finish until the completed
value has reached the value it signaled.  The bound `t ≤ 2^64` reflects the
`UINT64` fence counter. -/
theorem c1_prior_fence_values_reached_before_reset
    (n : ℕ) (sched : Schedule n) (comp surf : ℕ → ℕ) (t j : ℕ)
    (htn : t ≤ n) (ht1 : 1 ≤ t) (htU : t ≤ U64) (hjt : j < t) :
    signalValueOfTick comp surf j ≤ sched.completed (cpuStep t 0) := by
  have hw := sched.waitDone (t - 1) (by omega)
  have hstep : cpuStep (t - 1) 10 ≤ cpuStep t 0 := by
    simp only [cpuStep]
    omega
  have hm := sched.mono hstep
  have e1 : signaledAt (t - 1) = t - 1 := Nat.mod_eq_of_lt (by omega)
  have e2 : signalValueOfTick comp surf j = j := by
    rw [signalValueOfTick, runTicks_fenceValue]
    exact Nat.mod_eq_of_lt (by omega)
  rw [e1] at hw
  rw [e2]
  omega

/-- Witness for C1: at the allocator reset of tick 1 the value of tick 0 is
reached, under the synchronous schedule for a 3-tick run. -/
theorem c1_prior_fence_values_reached_before_reset_witness :
    ((1 : ℕ) ≤ 3 ∧ (1 : ℕ) ≤ U64 ∧ (0 : ℕ) < 1) ∧
    signalValueOfTick (fun _ => 0) (fun q => q % 2) 0 ≤
      (syncSchedule 3).completed (cpuStep 1 0) :=
  ⟨⟨by decide, by decide, by decide⟩,
   c1_prior_fence_values_reached_before_reset 3 (syncSchedule 3)
     (fun _ => 0) (fun q => q % 2) 1 0 (by decide) le_rfl (by decide) (by decide)⟩

/-- Claim C4: at every instant `s` of a run of `n` ticks, at most
`FrameCount - 1 = 1` submissions are in flight (submitted by
`ExecuteCommandLists` with their signaled fence value not yet reached); in
particular all `FrameCount = 2` presentation buffers are never in flight at
once, so at least one buffer is always outside the GPU-owned window.  The
tick indices surveyed are bounded by the run length and by the `UINT64`
modulus. -/
theorem c4_at_most_one_submission_in_flight
    (n : ℕ) (sched : Schedule n) (s m : ℕ) (hmn : m ≤ n) (hmU : m ≤ U64) :
    ((Finset.range m).filter (inFlight n sched s)).card ≤ App.FrameCount - 1 := by
  have key : ∀ i j : ℕ, i ∈ (Finset.range m).filter (inFlight n sched s) →
      j ∈ (Finset.range m).filter (inFlight n sched s) → i < j → False := by
    intro i j hi hj hij
    rw [Finset.mem_filter, Finset.mem_range] at hi hj
    simp only [inFlight] at hi hj
    obtain ⟨him, hiSub, hiVal⟩ := hi
    obtain ⟨hjm, hjSub, hjVal⟩ := hj
    have hw := sched.waitDone (j - 1) (by omega)
    have hstep : cpuStep (j - 1) 10 ≤ s := by
      simp only [cpuStep] at hjSub ⊢
      omega
    have hm' := sched.mono hstep
    have e1 : signaledAt (j - 1) = j - 1 := Nat.mod_eq_of_lt (by omega)
    have e2 : signaledAt i = i := Nat.mod_eq_of_lt (by omega)
    rw [e1] at hw
    rw [e2] at hiVal
    omega
  have : ((Finset.range m).filter (inFlight n sched s)).card ≤ 1 := by
    apply Finset.card_le_one.mpr
    intro a ha b hb
    by_contra hne
    rcases lt_or_gt_of_ne hne with h | h
    · exact key a b ha hb h
    · exact key b a hb ha h
  exact this

/-- Witness for C4: instant 60 of a 3-tick run under the synchronous
schedule. -/
theorem c4_at_most_one_submission_in_flight_witness :
    ((3 : ℕ) ≤ 3 ∧ (3 : ℕ) ≤ U64) ∧
    ((Finset.range 3).filter (inFlight 3 (syncSchedule 3) 60)).card ≤
      App.FrameCount - 1 :=
  ⟨⟨le_rfl, by decide⟩,
   c4_at_most_one_submission_in_flight 3 (syncSchedule 3) 60 3 le_rfl (by decide)⟩

/-- Claim C7 is false on the code as a statement about the close
notification: the program performs no drain on `WM_CLOSE`.  In the trace of
a 2-tick run, `WM_CLOSE` occurs exactly once, ten handle releases follow,
two fence check/wait points occur in the whole run (both inside `Render`
ticks, before the close) — and the segment of the trace strictly between the
close notification and the first handle release is just the
`PostQuitMessage` call: it contains no fence wait. -/
theorem c7_counterexample :
    (programTrace 2 (fun _ => 0) (fun q => q % 2)).countP isCloseEv = 1 ∧
    (programTrace 2 (fun _ => 0) (fun q => q % 2)).countP isReleaseEv = 10 ∧
    (programTrace 2 (fun _ => 0) (fun q => q % 2)).countP isWaitTraceEv = 2 ∧
    betweenCloseAndRelease (programTrace 2 (fun _ => 0) (fun q => q % 2)) =
      [TraceEv.postQuitMessage] ∧
    (betweenCloseAndRelease
        (programTrace 2 (fun _ => 0) (fun q => q % 2))).countP isWaitTraceEv = 0 := by
  decide

/-- Claim C7 amended: the code performs no shutdown-specific drain — the
`WM_CLOSE` handler only posts the quit message and the destructor follows
without any fence wait — but because each `Render` tick already waits for
the fence value it signals before returning, the fence value of the last
submitted frame (tick `n - 1`) is already reached at the instant the
destructor releases the device, queue and buffer handles: no release occurs
while that value is unreached. -/
theorem c7_last_fence_value_reached_at_release
    (n : ℕ) (sched : Schedule n) (comp surf : ℕ → ℕ) (h1 : 1 ≤ n) :
    signalValueOfTick comp surf (n - 1) ≤ sched.completed (shutdownReleaseStep n) := by
  have hw := sched.waitDone (n - 1) (by omega)
  have hstep : cpuStep (n - 1) 10 ≤ shutdownReleaseStep n := by
    simp only [cpuStep, shutdownReleaseStep]
    omega
  have hm := sched.mono hstep
  have e2 : signalValueOfTick comp surf (n - 1) = signaledAt (n - 1) :=
    runTicks_fenceValue comp surf (n - 1)
  rw [e2]
  omega

/-- Witness for the amended C7: a 1-tick run under the synchronous
schedule. -/
theorem c7_last_fence_value_reached_at_release_witness :
    (1 : ℕ) ≤ 1 ∧
    signalValueOfTick (fun _ => 0) (fun q => q % 2) (1 - 1) ≤
      (syncSchedule 1).completed (shutdownReleaseStep 1) :=
  ⟨le_rfl,
   c7_last_fence_value_reached_at_release 1 (syncSchedule 1)
     (fun _ => 0) (fun q => q % 2) le_rfl⟩

/-- Claim C8 is false on the code: a resize notification with positive
dimensions (800, 600) is routed to the default handler — the program
performs no buffer rebuild at all (0 rebuild actions, where the claim
requires exactly `FrameCount = 2` rebuilt buffers), and the redraw handler
invokes `Render` without consulting the drawable size, so a zero-sized frame
is not skipped either. -/
theorem c8_counterexample :
    WindowProc (WMsg.wmSize 800 600) = [WAction.defaultProc] ∧
    (WindowProc (WMsg.wmSize 800 600)).countP isRebuildAction = 0 ∧
    App.FrameCount = 2 ∧
    (WindowProc WMsg.wmPaint).countP isRenderAction = 1 ∧
    (0 : ℕ) ≠ 2 := by
  decide

/-- Claim C8 amended: the program contains no size handling at all — every
size-change notification, zero-sized or not, takes the default-handler path
and never invokes a buffer rebuild (no message does), and the redraw request
invokes rendering unconditionally, without any zero-size skip. -/
theorem c8_no_resize_handling (w h : ℕ) (m : WMsg) :
    WindowProc (WMsg.wmSize w h) = [WAction.defaultProc] ∧
    (WindowProc m).countP isRebuildAction = 0 ∧
    WindowProc WMsg.wmPaint = [WAction.callRender] := by
  refine ⟨rfl, ?_, rfl⟩
  cases m <;> rfl

/-!  Helper lemmas for the setup-failure claim. -/

/-- If the first `m` guarded setup calls all succeed, the setup prefix
succeeds. -/
theorem runSetupChecks_ok (hr : ℕ → ℤ) (m : ℕ) (h : ∀ j, j < m → 0 ≤ hr j) :
    runSetupChecks hr m = Except.ok () := by
  induction m with
  | zero => rfl
  | succ m ih =>
    have h1 : runSetupChecks hr m = Except.ok () := ih (fun j hj => h j (by omega))
    have h2 : ¬ hr m < 0 := not_lt.mpr (h m (by omega))
    simp only [runSetupChecks, h1, ThrowIfFailed, if_neg h2]
    rfl

/-- If call `k` is the first failing guarded setup call, every longer prefix
of the setup fails with exactly `HrException(hr k)`. -/
theorem runSetupChecks_err (hr : ℕ → ℤ) (k : ℕ)
    (hok : ∀ j, j < k → 0 ≤ hr j) (hbad : hr k < 0) :
    ∀ m, k < m → runSetupChecks hr m = Except.error { m_hr := hr k } := by
  intro m
  induction m with
  | zero => intro h; exact absurd h (Nat.not_lt_zero k)
  | succ m ih =>
    intro hkm
    rcases Nat.lt_or_ge k m with h | h
    · have h1 := ih h
      simp only [runSetupChecks, h1]
      rfl
    · have hk : k = m := by omega
      subst hk
      have h1 := runSetupChecks_ok hr k hok
      simp only [runSetupChecks, h1, ThrowIfFailed, if_pos hbad]
      rfl

/-- Claim C9: if the `k`-th `ThrowIfFailed`-guarded setup call (device,
queue, swap chain, descriptor heap, buffers, allocator, command list or
fence creation) is the first to return a failing `HRESULT`, then the
constructor raises `HrException(hr k)` carrying that exact status code, with
a message containing its eight hex digits; no later setup step runs (the
outcome is unchanged by whatever statuses later calls would have returned);
and the exception unwinds through the handler-less `wWinMain`, terminating
the process. -/
theorem c9_first_setup_failure_aborts
    (hr : ℕ → ℤ) (k : ℕ) (hk : k < setupCallCount)
    (hok : ∀ j, j < k → 0 ≤ hr j) (hbad : hr k < 0) :
    appSetup hr = Except.error { m_hr := hr k } ∧
    (HrException.mk (hr k)).Error = hr k ∧
    (HrException.mk (hr k)).what = "HRESULT of 0x" ++ toHex8 (hresultBits (hr k)) ∧
    (∀ hr2 : ℕ → ℤ, (∀ j, j ≤ k → hr2 j = hr j) → appSetup hr2 = appSetup hr) ∧
    wWinMainSetup hr = Except.error { m_hr := hr k } := by
  have h1 : appSetup hr = Except.error { m_hr := hr k } :=
    runSetupChecks_err hr k hok hbad setupCallCount hk
  refine ⟨h1, rfl, rfl, ?_, ?_⟩
  · intro hr2 hagree
    have hok2 : ∀ j, j < k → 0 ≤ hr2 j := by
      intro j hj
      rw [hagree j (le_of_lt hj)]
      exact hok j hj
    have hbad2 : hr2 k < 0 := by
      rw [hagree k le_rfl]
      exact hbad
    have h2 : appSetup hr2 = Except.error { m_hr := hr2 k } :=
      runSetupChecks_err hr2 k hok2 hbad2 setupCallCount hk
    rw [h1, h2, hagree k le_rfl]
  · simp only [wWinMainSetup, appSetup] at h1 ⊢
    simp only [h1]
    rfl

/-- Witness for C9: the third setup call (`CreateCommandQueue`) fails with
`E_OUTOFMEMORY` (`0x8007000E`, i.e. `-2147024882` as a signed `HRESULT`);
all conjuncts of the claim hold there, and the exception message renders the
code as `8007000E`. -/
theorem c9_first_setup_failure_aborts_witness :
    ((2 : ℕ) < setupCallCount ∧ (-2147024882 : ℤ) < 0 ∧
     (HrException.mk (-2147024882 : ℤ)).what = "HRESULT of 0x8007000E") ∧
    (appSetup (fun j => if j = 2 then (-2147024882 : ℤ) else 0) =
       Except.error { m_hr := (fun j => if j = 2 then (-2147024882 : ℤ) else 0) 2 } ∧
     (HrException.mk ((fun j => if j = 2 then (-2147024882 : ℤ) else 0) 2)).Error =
       (fun j => if j = 2 then (-2147024882 : ℤ) else 0) 2 ∧
     (HrException.mk ((fun j => if j = 2 then (-2147024882 : ℤ) else 0) 2)).what =
       "HRESULT of 0x" ++
         toHex8 (hresultBits ((fun j => if j = 2 then (-2147024882 : ℤ) else 0) 2)) ∧
     (∀ hr2 : ℕ → ℤ,
        (∀ j, j ≤ 2 → hr2 j = (fun j => if j = 2 then (-2147024882 : ℤ) else 0) j) →
        appSetup hr2 = appSetup (fun j => if j = 2 then (-2147024882 : ℤ) else 0)) ∧
     wWinMainSetup (fun j => if j = 2 then (-2147024882 : ℤ) else 0) =
       Except.error { m_hr := (fun j => if j = 2 then (-2147024882 : ℤ) else 0) 2 }) :=
  ⟨⟨by decide, by decide, by decide⟩,
   c9_first_setup_failure_aborts (fun j => if j = 2 then (-2147024882 : ℤ) else 0) 2
     (by decide) (by decide) (by decide)⟩
